import Mathlib

/-!
Shallow embedding of the True Price oracle core (Kalman filter, stablecoin
flow analysis, regime classification, signal generation) together with
theorems checking the natural-language specification against it.

All Python floats are modelled as real numbers; dictionaries are modelled
as functions into `Option`; Python `None` is `Option.none`.
-/

noncomputable section

/-! ## Data model (src/oracle/models) -/

/-- Market regime tags, from `models/regime.py` (`RegimeType`). -/
inductive RegimeType
  | NORMAL
  | TREND
  | LOW_VOLATILITY
  | HIGH_LEVERAGE
  | MANIPULATION
  | CASCADE
  deriving DecidableEq, Repr

/-- USDC regime signal tag set, from `models/stablecoin.py` (`USDCImpact.regime_signal`,
a string ranging over TREND / MANIPULATION / UNCERTAIN). -/
inductive RegimeSignal
  | TREND
  | MANIPULATION
  | UNCERTAIN
  deriving DecidableEq, Repr

/-- Embeds `models/regime.py` `Regime` dataclass. -/
structure Regime where
  type : RegimeType
  confidence : ℝ
  manipulation_probability : ℝ

/-- Embeds `Regime.normal` constructor (`manipulation_probability=0.1`). -/
def Regime.normal (confidence : ℝ) : Regime :=
  ⟨RegimeType.NORMAL, confidence, 0.1⟩

/-- Embeds `Regime.trend` constructor (`manipulation_probability=0.1`). -/
def Regime.trend (confidence : ℝ) : Regime :=
  ⟨RegimeType.TREND, confidence, 0.1⟩

/-- Embeds `Regime.manipulation` constructor (`manipulation_probability=confidence`). -/
def Regime.manipulation (confidence : ℝ) : Regime :=
  ⟨RegimeType.MANIPULATION, confidence, confidence⟩

/-- Embeds `Regime.cascade` constructor (`manipulation_probability=0.9`). -/
def Regime.cascade (confidence : ℝ) : Regime :=
  ⟨RegimeType.CASCADE, confidence, 0.9⟩

/-- Embeds `Regime.high_leverage` constructor (`manipulation_probability=0.4`). -/
def Regime.high_leverage (confidence : ℝ) : Regime :=
  ⟨RegimeType.HIGH_LEVERAGE, confidence, 0.4⟩

/-- Embeds `Regime.low_volatility` constructor (`manipulation_probability=0.05`). -/
def Regime.low_volatility (confidence : ℝ) : Regime :=
  ⟨RegimeType.LOW_VOLATILITY, confidence, 0.05⟩

/-- Embeds `Regime.get_band_multiplier` from `models/regime.py`. -/
def Regime.get_band_multiplier (r : Regime) : ℝ :=
  match r.type with
  | RegimeType.NORMAL => 1.0
  | RegimeType.TREND => 0.85
  | RegimeType.LOW_VOLATILITY => 0.8
  | RegimeType.HIGH_LEVERAGE => 1.5
  | RegimeType.MANIPULATION => 1.75
  | RegimeType.CASCADE => 2.0

/-- Embeds `models/stablecoin.py` `FlowRatio` dataclass. -/
structure FlowRatio where
  ratio : ℝ
  usdt_dominant : Bool
  usdc_dominant : Bool
  manipulation_probability : ℝ

/-- Embeds `models/stablecoin.py` `USDTImpact` dataclass. -/
structure USDTImpact where
  volatility_multiplier : ℝ
  trust_reduction : ℝ
  manipulation_prob_adjustment : ℝ

/-- Embeds `models/stablecoin.py` `USDCImpact` dataclass. -/
structure USDCImpact where
  drift_confidence_adjustment : ℝ
  regime_signal : RegimeSignal
  confidence : ℝ

/-- Embeds `models/stablecoin.py` `StablecoinState` dataclass. -/
structure StablecoinState where
  usdt_impact : USDTImpact
  usdc_impact : USDCImpact
  flow_ratio : FlowRatio

/-- Embeds `models/leverage.py` `LeverageState` dataclass. -/
structure LeverageState where
  open_interest : ℝ
  funding_rate : ℝ
  long_liquidations_1h : ℝ
  short_liquidations_1h : ℝ
  leverage_ratio : ℝ
  oi_change_5m : ℝ

/-- Embeds `LeverageState.total_liquidations_1h` property. -/
def LeverageState.total_liquidations_1h (ls : LeverageState) : ℝ :=
  ls.long_liquidations_1h + ls.short_liquidations_1h

/-- Embeds `models/leverage.py` `LeverageStress` dataclass. -/
structure LeverageStress where
  score : ℝ
  oi_component : ℝ
  funding_component : ℝ
  liquidation_component : ℝ
  divergence_component : ℝ
  usdt_component : ℝ

/-- Embeds `LeverageStress.from_components`: weighted composite, `min`-capped at 1. -/
def LeverageStress.from_components (oi_stress funding_stress liq_stress
    divergence_stress usdt_stress : ℝ) : LeverageStress :=
  let score := 0.20 * oi_stress + 0.20 * funding_stress + 0.25 * liq_stress +
    0.10 * divergence_stress + 0.25 * usdt_stress
  ⟨min 1.0 score, oi_stress, funding_stress, liq_stress, divergence_stress, usdt_stress⟩

/-- Embeds `models/leverage.py` `CascadeDetection` dataclass (direction and context omitted
from the flags that the classifier reads). -/
structure CascadeDetection where
  is_cascade : Bool
  confidence : ℝ

/-! ## Regime classifier (src/oracle/regime/classifier.py) -/

/-- Embeds `config.py` `RegimeConfig` dataclass (classification thresholds). -/
structure RegimeConfig where
  leverage_stress_high : ℝ
  volatility_low_threshold : ℝ
  manipulation_prob_threshold : ℝ
  cascade_confidence_threshold : ℝ

/-- Default `RegimeConfig` values from `config.py`. -/
def RegimeConfig.default : RegimeConfig := ⟨0.7, 0.2, 0.7, 0.7⟩

/-- Embeds `RegimeClassifier.classify`, translated line by line from
`regime/classifier.py`. -/
def classify (cfg : RegimeConfig) (leverage_stress : LeverageStress)
    (cascade_detection : CascadeDetection) (stablecoin_state : StablecoinState)
    (volatility_annualized : ℝ) : Regime :=
  if cascade_detection.is_cascade then
    Regime.cascade cascade_detection.confidence
  else
    let manip_prob := stablecoin_state.flow_ratio.manipulation_probability
    if manip_prob > cfg.manipulation_prob_threshold then
      Regime.manipulation manip_prob
    else
      let usdc_impact := stablecoin_state.usdc_impact
      if usdc_impact.regime_signal = RegimeSignal.TREND ∧
          stablecoin_state.flow_ratio.usdc_dominant then
        Regime.trend usdc_impact.confidence
      else if leverage_stress.score > cfg.leverage_stress_high then
        Regime.high_leverage leverage_stress.score
      else if volatility_annualized < cfg.volatility_low_threshold then
        Regime.low_volatility (1 - volatility_annualized / cfg.volatility_low_threshold)
      else
        Regime.normal 0.8

/-- The result rows of `RegimeClassifier.get_regime_parameters`. -/
structure RegimeParams where
  process_noise_mult : ℝ
  observation_noise_mult : ℝ
  band_mult : ℝ
  reversion_speed : String

/-- Embeds `RegimeClassifier.get_regime_parameters` from `regime/classifier.py`
(the dict lookup is total over the six regime tags, so the
`params[RegimeType.NORMAL]` fallback is unreachable). -/
def get_regime_parameters (regime : Regime) : RegimeParams :=
  match regime.type with
  | RegimeType.TREND => ⟨1.2, 0.8, 0.85, "slow"⟩
  | RegimeType.LOW_VOLATILITY => ⟨0.5, 0.8, 0.8, "fast"⟩
  | RegimeType.NORMAL => ⟨1.0, 1.0, 1.0, "normal"⟩
  | RegimeType.HIGH_LEVERAGE => ⟨1.5, 2.0, 1.5, "normal"⟩
  | RegimeType.MANIPULATION => ⟨0.3, 3.0, 1.5, "fast"⟩
  | RegimeType.CASCADE => ⟨0.5, 5.0, 2.0, "fast"⟩

/-- The classifier exactly as the specification's priority list words it
(spec §4.6 / claim C2); compared against `classify` by theorem, never used
in the embedding itself. -/
def classifySpec (cfg : RegimeConfig) (leverage_stress : LeverageStress)
    (cascade_detection : CascadeDetection) (stablecoin_state : StablecoinState)
    (volatility_annualized : ℝ) : Regime :=
  if cascade_detection.is_cascade then
    ⟨RegimeType.CASCADE, cascade_detection.confidence, 0.9⟩
  else if stablecoin_state.flow_ratio.manipulation_probability >
      cfg.manipulation_prob_threshold then
    ⟨RegimeType.MANIPULATION, stablecoin_state.flow_ratio.manipulation_probability,
      stablecoin_state.flow_ratio.manipulation_probability⟩
  else if stablecoin_state.usdc_impact.regime_signal = RegimeSignal.TREND ∧
      stablecoin_state.flow_ratio.usdc_dominant then
    ⟨RegimeType.TREND, stablecoin_state.usdc_impact.confidence, 0.1⟩
  else if leverage_stress.score > cfg.leverage_stress_high then
    ⟨RegimeType.HIGH_LEVERAGE, leverage_stress.score, 0.4⟩
  else if volatility_annualized < cfg.volatility_low_threshold then
    ⟨RegimeType.LOW_VOLATILITY,
      1 - volatility_annualized / cfg.volatility_low_threshold, 0.05⟩
  else
    ⟨RegimeType.NORMAL, 0.8, 0.1⟩

/-! ## Signal model (src/oracle/models/signal.py) -/

/-- Embeds `SignalType` enum. -/
inductive SignalType
  | LONG
  | SHORT
  | NEUTRAL
  deriving DecidableEq, Repr

/-- Embeds `Target` dataclass. -/
structure Target where
  price : ℝ
  probability : ℝ
  label : String

/-- Embeds `Timeframe` dataclass. -/
structure Timeframe where
  expected_hours : ℝ
  range_hours : ℝ × ℝ
  confidence : ℝ

/-- The `stablecoin_context` dict attached to non-neutral signals in
`signals/generator.py`. -/
structure StablecoinContext where
  ratio : ℝ
  usdt_dominant : Bool
  usdc_dominant : Bool

/-- Embeds `Signal` dataclass; optional fields keep their dataclass defaults
(`targets=[]`, `timeframe=None`, `stop_loss=None`, empty context). -/
structure Signal where
  type : SignalType
  confidence : ℝ
  reversion_probability : ℝ
  manipulation_probability : ℝ
  zscore : ℝ
  regime : String
  targets : List Target
  timeframe : Option Timeframe
  stop_loss : Option ℝ
  stablecoin_context : Option StablecoinContext

/-- Embeds `Signal.neutral` classmethod: all numeric fields zero, no targets. -/
def Signal.neutral : Signal :=
  ⟨SignalType.NEUTRAL, 0, 0, 0, 0, "NORMAL", [], none, none, none⟩

/-- Python `RegimeType.name` (the enum member name as a string). -/
def RegimeType.name (t : RegimeType) : String :=
  match t with
  | RegimeType.NORMAL => "NORMAL"
  | RegimeType.TREND => "TREND"
  | RegimeType.LOW_VOLATILITY => "LOW_VOLATILITY"
  | RegimeType.HIGH_LEVERAGE => "HIGH_LEVERAGE"
  | RegimeType.MANIPULATION => "MANIPULATION"
  | RegimeType.CASCADE => "CASCADE"

/-- Embeds `models/true_price.py` `TruePriceEstimate` dataclass (the opaque
`data_hash` bytes are modelled as an optional byte list). -/
structure TruePriceEstimate where
  price : ℝ
  std : ℝ
  confidence_interval : ℝ × ℝ
  deviation_zscore : ℝ
  spot_median : ℝ
  regime : Regime
  timestamp : ℤ
  data_hash : Option (List ℕ)

/-! ## Signal generator (src/oracle/signals/generator.py) -/

/-- Embeds `config.py` `SignalConfig` dataclass. -/
structure SignalConfig where
  min_zscore_threshold : ℝ
  base_confidence : ℝ
  zscore_confidence_scale : ℝ
  base_reversion_hours : ℝ
  min_signal_interval_seconds : ℤ

/-- Default `SignalConfig` values from `config.py`. -/
def SignalConfig.default : SignalConfig := ⟨1.5, 0.5, 0.1, 4.0, 60⟩

/-- Embeds `TruePriceSignalGenerator._compute_manipulation_probability`. -/
def compute_manipulation_probability (z : ℝ) (regime : Regime)
    (leverage_stress : LeverageStress) (stablecoin_state : StablecoinState) : ℝ :=
  let z0 : ℝ := 2.0
  let k : ℝ := 2.0
  let base_prob := 1 / (1 + Real.exp (-k * (|z| - z0)))
  let regime_mult : ℝ :=
    match regime.type with
    | RegimeType.CASCADE => 1.5
    | RegimeType.MANIPULATION => 1.8
    | RegimeType.HIGH_LEVERAGE => 1.3
    | RegimeType.NORMAL => 1.0
    | RegimeType.LOW_VOLATILITY => 0.7
    | RegimeType.TREND => 0.5
  let stress_mult := 1 + leverage_stress.score * 0.5
  let stablecoin_mult : ℝ :=
    if stablecoin_state.flow_ratio.usdt_dominant then 1.5
    else if stablecoin_state.flow_ratio.usdc_dominant then 0.6
    else 1.0
  min 0.95 (base_prob * regime_mult * stress_mult * stablecoin_mult)

/-- Embeds `TruePriceSignalGenerator._compute_reversion_probability`. -/
def compute_reversion_probability (manip_prob : ℝ)
    (stablecoin_state : StablecoinState) : ℝ :=
  if stablecoin_state.flow_ratio.usdt_dominant then 0.6 + 0.35 * manip_prob
  else if stablecoin_state.flow_ratio.usdc_dominant then 0.3 + 0.3 * manip_prob
  else 0.5 + 0.4 * manip_prob

/-- Embeds `TruePriceSignalGenerator._adjust_for_regime`. -/
def adjust_for_regime (reversion_prob : ℝ) (regime : Regime) : ℝ :=
  let adjustment : ℝ :=
    match regime.type with
    | RegimeType.CASCADE => 0.1
    | RegimeType.MANIPULATION => 0.1
    | RegimeType.HIGH_LEVERAGE => 0.05
    | RegimeType.NORMAL => 0
    | RegimeType.LOW_VOLATILITY => -0.1
    | RegimeType.TREND => -0.2
  max 0.2 (min 0.95 (reversion_prob + adjustment))

/-- Embeds `TruePriceSignalGenerator._compute_confidence`. -/
def compute_confidence (cfg : SignalConfig) (z : ℝ)
    (stablecoin_state : StablecoinState) : ℝ :=
  let base_confidence :=
    min 0.95 (cfg.base_confidence + cfg.zscore_confidence_scale * (|z| - 1.5))
  let stablecoin_clarity := |stablecoin_state.flow_ratio.ratio - 1|
  let clarity_bonus := 0.1 * min stablecoin_clarity 3
  min 0.95 (base_confidence * (1 + clarity_bonus))

/-- Embeds `TruePriceSignalGenerator._compute_targets`. -/
def compute_targets (spot true_price z : ℝ)
    (stablecoin_state : StablecoinState) : List Target :=
  let deviation := spot - true_price
  let prob_mult : ℝ :=
    if stablecoin_state.flow_ratio.usdt_dominant then 1.2
    else if stablecoin_state.flow_ratio.usdc_dominant then 0.7
    else 1.0
  let t1_price := spot - 0.5 * deviation
  let t1_prob := min 0.95 (0.70 * prob_mult)
  let t2_price := spot - 0.75 * deviation
  let t2_prob := min 0.80 (0.50 * prob_mult)
  let t3_prob := min 0.60 (0.35 * prob_mult)
  let overshoot := true_price - 0.25 * deviation
  let t4_prob := min 0.30 (0.15 * prob_mult)
  [⟨t1_price, t1_prob, "T1_50%"⟩, ⟨t2_price, t2_prob, "T2_75%"⟩,
   ⟨true_price, t3_prob, "T3_Full"⟩, ⟨overshoot, t4_prob, "T4_Overshoot"⟩]

/-- Embeds `TruePriceSignalGenerator._estimate_timeframe`. -/
def estimate_timeframe (cfg : SignalConfig) (z : ℝ) (regime : Regime)
    (stablecoin_state : StablecoinState) : Timeframe :=
  let base_hours := cfg.base_reversion_hours
  let zscore_mult := max 0.5 (2 - |z| * 0.3)
  let regime_mult : ℝ :=
    match regime.type with
    | RegimeType.CASCADE => 0.25
    | RegimeType.MANIPULATION => 0.5
    | RegimeType.HIGH_LEVERAGE => 0.75
    | RegimeType.NORMAL => 1.0
    | RegimeType.LOW_VOLATILITY => 1.5
    | RegimeType.TREND => 3.0
  let stablecoin_mult : ℝ :=
    if stablecoin_state.flow_ratio.usdt_dominant then 0.7
    else if stablecoin_state.flow_ratio.usdc_dominant then 1.5
    else 1.0
  let hours := base_hours * zscore_mult * regime_mult * stablecoin_mult
  ⟨hours, (hours * 0.5, hours * 2), 0.7⟩

/-- Embeds `TruePriceSignalGenerator._compute_stop_loss`. -/
def compute_stop_loss (spot z : ℝ) (regime : Regime)
    (stablecoin_state : StablecoinState) : ℝ :=
  let base0 : ℝ := 0.02
  let base1 : ℝ :=
    if regime.type = RegimeType.CASCADE ∨ regime.type = RegimeType.MANIPULATION then
      base0 * 1.5
    else if regime.type = RegimeType.TREND then base0 * 1.3
    else base0
  let base2 : ℝ :=
    if stablecoin_state.flow_ratio.usdt_dominant then base1 * 1.2 else base1
  if z > 0 then spot * (1 + base2) else spot * (1 - base2)

/-- Embeds `TruePriceSignalGenerator.generate_signal`. -/
def generate_signal (cfg : SignalConfig) (true_price_estimate : TruePriceEstimate)
    (leverage_stress : LeverageStress) (stablecoin_state : StablecoinState) : Signal :=
  let z := true_price_estimate.deviation_zscore
  let spot := true_price_estimate.spot_median
  let true_p := true_price_estimate.price
  let regime := true_price_estimate.regime
  if |z| < cfg.min_zscore_threshold then
    Signal.neutral
  else
    let manip_prob := compute_manipulation_probability z regime leverage_stress stablecoin_state
    let reversion_prob0 := compute_reversion_probability manip_prob stablecoin_state
    let reversion_prob := adjust_for_regime reversion_prob0 regime
    let direction := if z > 0 then SignalType.SHORT else SignalType.LONG
    let confidence := compute_confidence cfg z stablecoin_state
    let targets := compute_targets spot true_p z stablecoin_state
    let timeframe := estimate_timeframe cfg z regime stablecoin_state
    let stop_loss := compute_stop_loss spot z regime stablecoin_state
    ⟨direction, confidence, reversion_prob, manip_prob, z, regime.type.name,
      targets, some timeframe, some stop_loss,
      some ⟨stablecoin_state.flow_ratio.ratio,
        stablecoin_state.flow_ratio.usdt_dominant,
        stablecoin_state.flow_ratio.usdc_dominant⟩⟩

/-! ## Stablecoin flow data and USDT model (src/oracle/stablecoins) -/

/-- Embeds `stablecoins/analyzer.py` `StablecoinFlowData` dataclass. -/
structure StablecoinFlowData where
  usdt_mint_volume_24h : ℝ
  usdt_derivatives_flow : ℝ
  usdt_spot_flow : ℝ
  usdt_hourly_flows : List ℝ
  usdc_mint_volume_24h : ℝ
  usdc_spot_flow : ℝ
  usdc_custody_flow : ℝ
  usdc_defi_flow : ℝ
  usdc_burn_volume_24h : ℝ
  price_return_24h : ℝ
  price_direction : String

/-- Embeds `config.py` `StablecoinConfig` dataclass. -/
structure StablecoinConfig where
  usdt_volatility_mult_base : ℝ
  usdt_volatility_mult_max : ℝ
  usdt_typical_mint_volume : ℝ
  usdt_typical_derivatives_flow : ℝ
  usdc_drift_confidence_max : ℝ
  usdc_typical_spot_flow : ℝ
  usdc_typical_custody_flow : ℝ
  manipulation_ratio_threshold : ℝ
  trend_ratio_threshold : ℝ

/-- Default `StablecoinConfig` values from `config.py`. -/
def StablecoinConfig.default : StablecoinConfig :=
  ⟨1.0, 3.0, 500000000, 300000000, 0.1, 200000000, 100000000, 2.0, 0.5⟩

/-- Python `np.mean` of a Python list (sum divided by length). -/
def listMean (l : List ℝ) : ℝ := l.sum / l.length

/-- Python slice `l[-n:]`: the last `n` elements (the whole list when shorter). -/
def lastN (n : ℕ) (l : List ℝ) : List ℝ := l.drop (l.length - n)

/-- Embeds `USDTFlowModel._normalize`: value over typical, capped at 2, and 0 for a
zero denominator. -/
def usdt_normalize (value typical : ℝ) : ℝ :=
  if typical = 0 then 0 else min 2.0 (value / typical)

/-- Embeds `USDTFlowModel._compute_oi_correlation`, translated line by line: works on
the last 24 hourly flows, returns 0 with fewer than 5 samples or zero open
interest, and otherwise 0.8 / 0.5 / 0.2 after a recent-spike test against
1.5x the overall mean (plus the 1e-10 guard). -/
def compute_oi_correlation (flow_data : StablecoinFlowData)
    (leverage_state : LeverageState) : ℝ :=
  let usdt_flows := lastN 24 flow_data.usdt_hourly_flows
  if usdt_flows.length < 5 then 0.0
  else if leverage_state.open_interest = 0 then 0.0
  else
    let recent_usdt := listMean (lastN 4 usdt_flows)
    let typical_usdt := listMean usdt_flows + 1e-10
    if recent_usdt > typical_usdt * 1.5 then
      if leverage_state.oi_change_5m > 0.01 then 0.8
      else if leverage_state.oi_change_5m > 0 then 0.5
      else 0.2
    else 0.2

/-- Embeds `USDTFlowModel.compute_impact`, translated line by line. -/
def compute_impact (cfg : StablecoinConfig) (flow_data : StablecoinFlowData)
    (leverage_state : Option LeverageState) : USDTImpact :=
  let mint_normalized := usdt_normalize flow_data.usdt_mint_volume_24h cfg.usdt_typical_mint_volume
  let derivatives_normalized :=
    usdt_normalize flow_data.usdt_derivatives_flow cfg.usdt_typical_derivatives_flow
  let oi_correlation : ℝ :=
    match leverage_state with
    | none => 0.0
    | some ls =>
      if flow_data.usdt_hourly_flows.isEmpty then 0.0
      else compute_oi_correlation flow_data ls
  let derivatives_ratio := flow_data.usdt_derivatives_flow /
    (flow_data.usdt_derivatives_flow + flow_data.usdt_spot_flow + 1)
  let vol_multiplier0 := cfg.usdt_volatility_mult_base +
    (0.5 * mint_normalized + 0.3 * derivatives_ratio + 0.2 * max 0 oi_correlation)
  let vol_multiplier := min cfg.usdt_volatility_mult_max vol_multiplier0
  let trust_reduction := max 0 (min 1 (0.5 * (vol_multiplier - 1.0)))
  let manip_adjustment := max 0 (min 0.3 (0.2 * derivatives_normalized))
  ⟨vol_multiplier, trust_reduction, manip_adjustment⟩

/-- The oi-correlation exactly as claim C8 words it: any case outside the
recent-spike test yields 0.0. Compared against `compute_oi_correlation` by
theorem only. -/
def oiCorrelationClaim (flow_data : StablecoinFlowData)
    (leverage_state : LeverageState) : ℝ :=
  if 5 ≤ flow_data.usdt_hourly_flows.length ∧
      listMean (lastN 4 flow_data.usdt_hourly_flows) >
        1.5 * listMean flow_data.usdt_hourly_flows then
    if leverage_state.oi_change_5m > 0.01 then 0.8
    else if leverage_state.oi_change_5m > 0 then 0.5
    else 0.2
  else 0.0

/-- The oi-correlation as the amended claim words it: 0 when fewer than 5 of
the last 24 samples remain or open interest is zero; within a recent spike
(recent 4-sample mean above 1.5x of overall mean plus 1e-10) 0.8 / 0.5 / 0.2
by the sign and size of `oi_change_5m`; otherwise 0.2. Compared against
`compute_oi_correlation` by theorem only. -/
def oiCorrelationAmended (flow_data : StablecoinFlowData)
    (leverage_state : LeverageState) : ℝ :=
  let flows := lastN 24 flow_data.usdt_hourly_flows
  if flows.length < 5 ∨ leverage_state.open_interest = 0 then 0.0
  else if listMean (lastN 4 flows) > (listMean flows + 1e-10) * 1.5 then
    if leverage_state.oi_change_5m > 0.01 then 0.8
    else if leverage_state.oi_change_5m > 0 then 0.5
    else 0.2
  else 0.2

/-! ## Covariance manager (src/oracle/kalman/covariance.py) -/

/-- Embeds `config.py` `KalmanConfig` dataclass. -/
structure KalmanConfig where
  initial_price : ℝ
  initial_drift : ℝ
  initial_price_var : ℝ
  initial_drift_var : ℝ
  process_noise_price : ℝ
  process_noise_drift : ℝ
  drift_persistence : ℝ
  base_observation_var : ℝ

/-- Default `KalmanConfig` values from `config.py`. -/
def KalmanConfig.default : KalmanConfig := ⟨0.0, 0.0, 100.0, 1.0, 1.0, 0.01, 0.99, 10.0⟩

/-- Embeds `config.py` `VenueConfig` dataclass (behavioural fields). -/
structure VenueConfig where
  name : String
  base_reliability : ℝ
  has_derivatives : Bool
  derivatives_ratio : ℝ
  is_decentralized : Bool
  usdc_primary : Bool
  enabled : Bool

/-- Embeds `config.py` `get_default_venues()` (behavioural fields only). -/
def defaultVenues : List VenueConfig :=
  [⟨"binance", 0.5, true, 0.7, false, false, true⟩,
   ⟨"coinbase", 0.8, false, 0.0, false, true, true⟩,
   ⟨"okx", 0.5, true, 0.6, false, false, true⟩,
   ⟨"kraken", 0.8, false, 0.0, false, false, true⟩,
   ⟨"uniswap", 0.6, false, 0.0, true, false, true⟩]

/-- Embeds `CovarianceManager.compute_observation_variance`, translated line by
line from `kalman/covariance.py`. -/
def compute_observation_variance (cfg : KalmanConfig) (venue : VenueConfig)
    (leverage_stress : Option LeverageStress) (orderbook_quality : ℝ)
    (stablecoin_state : Option StablecoinState) (is_cascade : Bool) : ℝ :=
  let base_variance := cfg.base_observation_var
  let venue_mult := 2.0 - venue.base_reliability
  let leverage_mult : ℝ :=
    match leverage_stress with
    | none => 1.0
    | some ls => 1 + ls.score * 5
  let quality_mult := 1 + (1 - orderbook_quality) * 3
  let cascade_mult : ℝ := if is_cascade then 10.0 else 1.0
  let usdt_mult : ℝ :=
    match stablecoin_state with
    | none => 1.0
    | some st => st.usdt_impact.volatility_multiplier
  let usdc_adj : ℝ :=
    match stablecoin_state with
    | none => 1.0
    | some st => if st.usdc_impact.regime_signal = RegimeSignal.TREND then 0.9 else 1.0
  let derivatives_mult : ℝ :=
    match stablecoin_state with
    | none => 1.0
    | some st =>
      if venue.has_derivatives ∧ st.flow_ratio.usdt_dominant then 1.5 else 1.0
  base_variance * venue_mult * leverage_mult * quality_mult * cascade_mult *
    usdt_mult * usdc_adj * derivatives_mult

/-- Embeds `StablecoinFlowAnalyzer.get_kalman_adjustments`: the
`venue_weight_adjustments` dict as a partial map from venue name. -/
def venue_weight_adjustments (st : StablecoinState) (name : String) : Option ℝ :=
  if st.flow_ratio.usdt_dominant then
    if name = "binance" then some 0.5
    else if name = "bybit" then some 0.5
    else if name = "okx" then some 0.6
    else if name = "coinbase" then some 1.2
    else if name = "kraken" then some 1.2
    else none
  else none

/-- The per-venue variance actually passed to the Kalman update by
`TruePriceOracle._prepare_observations`: the covariance-manager variance
divided by the stablecoin venue-weight multiplier (default 1.0). -/
def adjusted_observation_variance (cfg : KalmanConfig) (venue : VenueConfig)
    (leverage_stress : LeverageStress) (orderbook_quality : ℝ)
    (stablecoin_state : StablecoinState) (is_cascade : Bool) : ℝ :=
  let base_var := compute_observation_variance cfg venue (some leverage_stress)
    orderbook_quality (some stablecoin_state) is_cascade
  let weight_adj := (venue_weight_adjustments stablecoin_state venue.name).getD 1.0
  base_var / weight_adj

/-- The per-venue observation variance exactly as claim C4 words it.
Compared against `adjusted_observation_variance` by theorem only. -/
def observationVarianceSpec (cfg : KalmanConfig) (venue : VenueConfig)
    (leverage_stress : LeverageStress) (orderbook_quality : ℝ)
    (stablecoin_state : StablecoinState) (is_cascade : Bool) : ℝ :=
  cfg.base_observation_var * (2 - venue.base_reliability) *
    (1 + 5 * leverage_stress.score) * (1 + 3 * (1 - orderbook_quality)) *
    (if is_cascade then 10 else 1) *
    stablecoin_state.usdt_impact.volatility_multiplier *
    (if stablecoin_state.usdc_impact.regime_signal = RegimeSignal.TREND then 0.9 else 1) *
    (if venue.has_derivatives ∧ stablecoin_state.flow_ratio.usdt_dominant then 1.5 else 1) /
    ((venue_weight_adjustments stablecoin_state venue.name).getD 1.0)

/-! ## Kalman filter (src/oracle/kalman/filter.py) -/

open scoped Matrix

/-- 2x2 real matrix, the type of the state covariance `P`. -/
abbrev Mat2 := Matrix (Fin 2) (Fin 2) ℝ

/-- The 2-vector state `x = (true_price, drift)`. -/
abbrev Vec2 := Fin 2 → ℝ

/-- State transition matrix `F = [[1, 1], [0, drift_persistence]]`. -/
def Fmat (cfg : KalmanConfig) : Mat2 := !![1, 1; 0, cfg.drift_persistence]

/-- Base process noise `Q_base = [[process_noise_price, 0], [0, process_noise_drift]]`. -/
def Qbase (cfg : KalmanConfig) : Mat2 :=
  !![cfg.process_noise_price, 0; 0, cfg.process_noise_drift]

/-- Initial covariance `P = [[initial_price_var, 0], [0, initial_drift_var]]`. -/
def initialP (cfg : KalmanConfig) : Mat2 :=
  !![cfg.initial_price_var, 0; 0, cfg.initial_drift_var]

/-- The filter state pair `(x, P)`. -/
structure KalmanState where
  x : Vec2
  P : Mat2

/-- Embeds `TruePriceKalmanFilter.reset` / `__init__` state. -/
def kalman_init (cfg : KalmanConfig) (initial_price initial_drift : ℝ) : KalmanState :=
  ⟨![initial_price, initial_drift], initialP cfg⟩

/-- Embeds `CovarianceManager.compute_process_noise`: elementwise scaling of
`Q_base`, faster drift under a USDC-confirmed trend. -/
def compute_process_noise (Q_base : Mat2) (stablecoin_state : Option StablecoinState) : Mat2 :=
  let multiplier : ℝ :=
    match stablecoin_state with
    | none => 1.0
    | some st =>
      if st.usdc_impact.regime_signal = RegimeSignal.TREND then
        1.0 + 0.2 * st.usdc_impact.drift_confidence_adjustment
      else 1.0
  multiplier • Q_base

/-- Embeds `TruePriceKalmanFilter.predict`: `x' = F x`, `P' = F P Fᵀ + Q`. -/
def kalman_predict (cfg : KalmanConfig) (s : KalmanState)
    (stablecoin_state : Option StablecoinState) : KalmanState :=
  ⟨Matrix.mulVec (Fmat cfg) s.x,
    Fmat cfg * s.P * (Fmat cfg)ᵀ + compute_process_noise (Qbase cfg) stablecoin_state⟩

/-- Observation matrix `H`: `n` rows, every observation reads `true_price`. -/
def Hmat (n : ℕ) : Matrix (Fin n) (Fin 2) ℝ :=
  Matrix.of fun _ j => if j = 0 then 1 else 0

/-- Embeds `TruePriceKalmanFilter.update` on a predicted state: innovation,
`S = H P' Hᵀ + R`, gain `K = P' Hᵀ S⁻¹`, state update, and the Joseph-form
covariance `P = (I − K H) P' (I − K H)ᵀ + K R Kᵀ`. -/
def kalman_update (n : ℕ) (observations observation_variances : Fin n → ℝ)
    (sp : KalmanState) : KalmanState :=
  let H := Hmat n
  let R := Matrix.diagonal observation_variances
  let innovation := observations - Matrix.mulVec H sp.x
  let S := H * sp.P * Hᵀ + R
  let K := sp.P * Hᵀ * S⁻¹
  ⟨sp.x + Matrix.mulVec K innovation,
    (1 - K * H) * sp.P * (1 - K * H)ᵀ + K * R * Kᵀ⟩

/-- One tick of the filter seen from the orchestrator: the observation
vector, its variances, and the stablecoin state driving `Q`. -/
structure ObsTick where
  n : ℕ
  observations : Fin n → ℝ
  observation_variances : Fin n → ℝ
  stablecoin_state : Option StablecoinState

/-- Embeds `predict` followed by `update`, the per-tick call order of
`TruePriceOracle.update`. -/
def kalman_tick (cfg : KalmanConfig) (s : KalmanState) (t : ObsTick) : KalmanState :=
  kalman_update t.n t.observations t.observation_variances
    (kalman_predict cfg s t.stablecoin_state)

/-- A sequence of predict/update ticks. -/
def kalman_run (cfg : KalmanConfig) (s : KalmanState) (ticks : List ObsTick) : KalmanState :=
  ticks.foldl (kalman_tick cfg) s

/-! ## Orchestrator pieces (src/oracle/main.py) -/

/-- The loop body of `TruePriceOracle._prepare_observations`: venues in
config order, skipping ones with no price, pairing each price with its
weight-adjusted variance. -/
def venue_observations (cfg : KalmanConfig) (venues : List VenueConfig)
    (venue_prices : String → Option ℝ) (leverage_stress : LeverageStress)
    (stablecoin_state : StablecoinState) (is_cascade : Bool)
    (orderbook_qualities : String → Option ℝ) : List (ℝ × ℝ) :=
  venues.filterMap fun vc =>
    match venue_prices vc.name with
    | none => none
    | some price =>
      let quality := (orderbook_qualities vc.name).getD 1.0
      some (price, adjusted_observation_variance cfg vc leverage_stress quality
        stablecoin_state is_cascade)

/-- Embeds `TruePriceOracle._prepare_observations`: venue observations plus the
optional realized price at variance `0.5 * base_observation_var`. -/
def prepare_observations (cfg : KalmanConfig) (venues : List VenueConfig)
    (venue_prices : String → Option ℝ) (realized_price : Option ℝ)
    (leverage_stress : LeverageStress) (stablecoin_state : StablecoinState)
    (is_cascade : Bool) (orderbook_qualities : String → Option ℝ) :
    List ℝ × List ℝ :=
  let pairs := venue_observations cfg venues venue_prices leverage_stress
    stablecoin_state is_cascade orderbook_qualities
  let pairs2 :=
    match realized_price with
    | none => pairs
    | some rp => pairs ++ [(rp, cfg.base_observation_var * 0.5)]
  (pairs2.map Prod.fst, pairs2.map Prod.snd)

/-- Embeds `kalman_update` fed from observation lists, as the orchestrator calls it. -/
def kalman_update_list (observations observation_variances : List ℝ)
    (sp : KalmanState) : KalmanState :=
  kalman_update observations.length (fun i => observations.get i)
    (fun i => observation_variances.getD i 0) sp

/-- Steps 4 to 6 of `TruePriceOracle.update` for an initialized oracle:
Kalman predict, observation preparation, Kalman update. The surrounding
steps (flow analysis, cascade detection, stress) only produce the
`leverage_stress`, `stablecoin_state` and `is_cascade` arguments. -/
def oracle_update_kalman (cfg : KalmanConfig) (venues : List VenueConfig)
    (s : KalmanState) (venue_prices : String → Option ℝ)
    (realized_price : Option ℝ) (leverage_stress : LeverageStress)
    (stablecoin_state : StablecoinState) (is_cascade : Bool)
    (orderbook_qualities : String → Option ℝ) : KalmanState :=
  let sp := kalman_predict cfg s (some stablecoin_state)
  let ov := prepare_observations cfg venues venue_prices realized_price
    leverage_stress stablecoin_state is_cascade orderbook_qualities
  kalman_update_list ov.1 ov.2 sp

/-! ## Leverage stress calculator (src/oracle/regime/leverage_stress.py) -/

/-- Python `np.percentile(l, 50)`: the median with linear interpolation. -/
def npMedian (l : List ℝ) : ℝ :=
  let s := l.mergeSort (fun a b => a ≤ b)
  if l.length % 2 = 1 then s.getD (l.length / 2) 0
  else (s.getD (l.length / 2 - 1) 0 + s.getD (l.length / 2) 0) / 2

/-- Python `np.std`: population standard deviation. -/
def npStd (l : List ℝ) : ℝ :=
  Real.sqrt (listMean (l.map fun x => (x - listMean l) ^ 2))

/-- Python `max(l)` over a nonempty list. -/
def listMax (l : List ℝ) : ℝ :=
  match l with
  | [] => 0
  | h :: t => t.foldl max h

/-- Embeds `LeverageStressCalculator` state: the normalization constants and the
two capped history buffers. -/
structure LeverageStressCalculator where
  typical_oi : ℝ
  typical_liquidation_volume : ℝ
  oi_history : List ℝ
  funding_history : List ℝ

/-- Embeds `LeverageStressCalculator()` with default constants and empty history. -/
def LeverageStressCalculator.init : LeverageStressCalculator :=
  ⟨10000000000, 50000000, [], []⟩

/-- Embeds `LeverageStressCalculator._update_history`: append, keep the last 2160. -/
def update_history (c : LeverageStressCalculator) (leverage_state : LeverageState) :
    LeverageStressCalculator :=
  let oi := c.oi_history ++ [leverage_state.open_interest]
  let f := c.funding_history ++ [leverage_state.funding_rate]
  if 2160 < oi.length then
    ⟨c.typical_oi, c.typical_liquidation_volume, lastN 2160 oi, lastN 2160 f⟩
  else ⟨c.typical_oi, c.typical_liquidation_volume, oi, f⟩

/-- Embeds `LeverageStressCalculator._compute_oi_stress`. -/
def compute_oi_stress (c : LeverageStressCalculator) (current_oi : ℝ) : ℝ :=
  if c.oi_history.length < 10 then min 1.0 (current_oi / c.typical_oi)
  else
    let percentile := npMedian c.oi_history
    if current_oi ≤ percentile then 0
    else
      let max_oi := listMax c.oi_history
      if max_oi = percentile then 0
      else max 0 (min 1.0 ((current_oi - percentile) / (max_oi - percentile) * 2))

/-- Embeds `LeverageStressCalculator._compute_funding_stress`. -/
def compute_funding_stress (c : LeverageStressCalculator) (current_funding : ℝ) : ℝ :=
  if c.funding_history.length < 10 then min 1.0 (|current_funding| / 0.001)
  else
    let mean_funding := listMean c.funding_history
    let std_funding := npStd c.funding_history + 1e-10
    min 1.0 (|current_funding - mean_funding| / std_funding / 3)

/-- Embeds `LeverageStressCalculator.calculate`: updates the history and combines
the five components; returns the new calculator state alongside the stress. -/
def leverage_calculate (c : LeverageStressCalculator) (leverage_state : LeverageState)
    (price_return_1h : ℝ) (stablecoin_state : Option StablecoinState) :
    LeverageStressCalculator × LeverageStress :=
  let c1 := update_history c leverage_state
  let oi_stress := compute_oi_stress c1 leverage_state.open_interest
  let funding_stress := compute_funding_stress c1 leverage_state.funding_rate
  let liq_intensity := leverage_state.total_liquidations_1h / c1.typical_liquidation_volume
  let liq_stress := min 1.0 (liq_intensity / 5)
  let divergence := leverage_state.funding_rate * (-price_return_1h)
  let divergence_stress := max 0 (min 1.0 (divergence * 10))
  let usdt_stress : ℝ :=
    match stablecoin_state with
    | none => 0
    | some st => min 1.0 ((st.usdt_impact.volatility_multiplier - 1) / 2)
  (c1, LeverageStress.from_components oi_stress funding_stress liq_stress
    divergence_stress usdt_stress)

/-! ## Orchestrator signal path (src/oracle/main.py) -/

/-- The orchestrator state read by `TruePriceOracle.generate_signal`. -/
structure OracleSignalState where
  leverage_calculator : LeverageStressCalculator
  last_estimate : Option TruePriceEstimate
  last_stablecoin_state : Option StablecoinState

/-- Embeds `TruePriceOracle.generate_signal`: neutral when either cached value is
missing, otherwise a fresh stress computation on a zeroed `LeverageState`
feeds the signal generator. -/
def oracle_generate_signal (scfg : SignalConfig) (st : OracleSignalState) : Signal :=
  match st.last_estimate, st.last_stablecoin_state with
  | some est, some sst =>
    let leverage_stress :=
      (leverage_calculate st.leverage_calculator ⟨0, 0, 0, 0, 1, 0⟩ 0 (some sst)).2
    generate_signal scfg est leverage_stress sst
  | _, _ => Signal.neutral

/-! ## Concrete sample inputs for witnesses and counterexamples -/

/-- A mixed (neither dominant) flow ratio. -/
def sampleFlowRatio : FlowRatio := ⟨1.0, false, false, 0.3⟩

/-- A USDT impact within its documented bounds. -/
def sampleUSDTImpact : USDTImpact := ⟨1.2, 0.1, 0.05⟩

/-- A USDC impact with an UNCERTAIN regime signal. -/
def sampleUSDCImpact : USDCImpact := ⟨0.05, RegimeSignal.UNCERTAIN, 0.5⟩

/-- A quiet stablecoin state. -/
def sampleState : StablecoinState := ⟨sampleUSDTImpact, sampleUSDCImpact, sampleFlowRatio⟩

/-- A moderate leverage stress. -/
def sampleStress : LeverageStress := ⟨0.3, 0.3, 0.3, 0.3, 0.3, 0.3⟩

/-- An estimate with a small deviation (z = 0.5). -/
def estimateCalm : TruePriceEstimate :=
  ⟨30000, 10, (29980, 30020), 0.5, 30005, Regime.normal 0.8, 0, none⟩

/-- An estimate with z = 2 but spot median equal to the true price. -/
def estimateDegenerate : TruePriceEstimate :=
  ⟨100, 10, (80, 120), 2, 100, Regime.normal 0.8, 0, none⟩

/-- An estimate with z = 2 and spot median above the true price. -/
def estimateShort : TruePriceEstimate :=
  ⟨100, 10, (80, 120), 2, 110, Regime.normal 0.8, 0, none⟩

/-! ## Theorems -/

/-- C2: the regime classifier evaluates regimes in fixed priority order with
first match winning — CASCADE (cascade confidence), then MANIPULATION
(flow-ratio manipulation probability above its threshold), then TREND
(USDC TREND signal and USDC-dominant flows, USDC confidence), then
HIGH_LEVERAGE (stress score above its threshold), then LOW_VOLATILITY
(annualized volatility below its threshold, confidence 1 − vol/threshold),
else NORMAL with confidence 0.8. -/
theorem classify_priority_order (cfg : RegimeConfig) (leverage_stress : LeverageStress)
    (cascade_detection : CascadeDetection) (stablecoin_state : StablecoinState)
    (volatility_annualized : ℝ) :
    classify cfg leverage_stress cascade_detection stablecoin_state volatility_annualized =
      classifySpec cfg leverage_stress cascade_detection stablecoin_state
        volatility_annualized := rfl

/-- C9 (code bug): the regime-parameter table of
`RegimeClassifier.get_regime_parameters` exposes band multiplier 1.5 for
MANIPULATION, while `Regime.get_band_multiplier` (and the spec glossary)
give 1.75 for the same regime; the other five regimes agree with the claim. -/
theorem band_multiplier_manipulation_mismatch :
    (get_regime_parameters (Regime.manipulation 0.8)).band_mult = 1.5 ∧
    (Regime.manipulation 0.8).get_band_multiplier = 1.75 ∧
    (1.5 : ℝ) ≠ 1.75 ∧
    (get_regime_parameters (Regime.normal 0.8)).band_mult = 1.0 ∧
    (get_regime_parameters (Regime.trend 0.8)).band_mult = 0.85 ∧
    (get_regime_parameters (Regime.low_volatility 0.8)).band_mult = 0.8 ∧
    (get_regime_parameters (Regime.high_leverage 0.8)).band_mult = 1.5 ∧
    (get_regime_parameters (Regime.cascade 0.8)).band_mult = 2.0 :=
  ⟨rfl, rfl, by norm_num, rfl, rfl, rfl, rfl, rfl⟩

/-- C10: if the orchestrator's `generate_signal` runs before any successful
update (no cached estimate, or no cached stablecoin state), it returns the
neutral signal rather than failing. -/
theorem generate_signal_uninitialized_neutral (scfg : SignalConfig)
    (st : OracleSignalState)
    (h : st.last_estimate = none ∨ st.last_stablecoin_state = none) :
    oracle_generate_signal scfg st = Signal.neutral := by
  cases h1 : st.last_estimate <;> cases h2 : st.last_stablecoin_state <;>
    simp_all [oracle_generate_signal]

/-- Witness for C10 at a concrete fresh oracle state. -/
theorem generate_signal_uninitialized_neutral_witness :
    oracle_generate_signal SignalConfig.default
      ⟨LeverageStressCalculator.init, none, none⟩ = Signal.neutral :=
  generate_signal_uninitialized_neutral SignalConfig.default
    ⟨LeverageStressCalculator.init, none, none⟩ (Or.inl rfl)

/-- C3: the generated signal is neutral exactly when the absolute deviation
z-score is below the minimum threshold, and a neutral result is the
`Signal.neutral` record — all numeric fields zero and no targets. -/
theorem neutral_signal_iff (cfg : SignalConfig) (est : TruePriceEstimate)
    (leverage_stress : LeverageStress) (stablecoin_state : StablecoinState) :
    ((generate_signal cfg est leverage_stress stablecoin_state).type = SignalType.NEUTRAL ↔
      |est.deviation_zscore| < cfg.min_zscore_threshold) ∧
    ((generate_signal cfg est leverage_stress stablecoin_state).type = SignalType.NEUTRAL →
      generate_signal cfg est leverage_stress stablecoin_state = Signal.neutral) := by
  by_cases h : |est.deviation_zscore| < cfg.min_zscore_threshold
  · constructor
    · simp [generate_signal, h, Signal.neutral]
    · intro _
      simp [generate_signal, h]
  · have htype : (generate_signal cfg est leverage_stress stablecoin_state).type =
        (if est.deviation_zscore > 0 then SignalType.SHORT else SignalType.LONG) := by
      simp [generate_signal, h]
    constructor
    · rw [htype]
      split <;> simp [h]
    · intro hn
      rw [htype] at hn
      revert hn
      split <;> simp

/-- Witness for C3: a calm estimate (z = 0.5 with threshold 1.5) yields the
neutral record. -/
theorem neutral_signal_iff_witness :
    generate_signal SignalConfig.default estimateCalm sampleStress sampleState =
      Signal.neutral := by
  have h := neutral_signal_iff SignalConfig.default estimateCalm sampleStress sampleState
  exact h.2 (h.1.mpr (by norm_num [estimateCalm, SignalConfig.default, abs_lt]))

/-- C6 counterexample: with z = 2 the generator emits a SHORT signal, but if
the cached spot median equals the cached true price (a `TruePriceEstimate`
the generator accepts as-is), all four target prices coincide — the targets
are not strictly descending. -/
theorem targets_not_monotone_at_degenerate_estimate :
    0 < estimateDegenerate.deviation_zscore ∧
    (generate_signal SignalConfig.default estimateDegenerate sampleStress
      sampleState).type = SignalType.SHORT ∧
    ¬ List.Chain' (fun a b => b < a)
      ((generate_signal SignalConfig.default estimateDegenerate sampleStress
        sampleState).targets.map Target.price) := by
  refine ⟨by norm_num [estimateDegenerate], ?_, ?_⟩
  · norm_num [generate_signal, estimateDegenerate, SignalConfig.default, abs_lt]
  · norm_num [generate_signal, estimateDegenerate, SignalConfig.default, abs_lt,
      compute_targets, List.chain'_cons]

/-- C6 (amended): for a non-neutral signal whose estimate deviates in the
direction of its z-score, the four target prices are strictly descending
for SHORT (z > 0, spot above true) and strictly ascending for LONG
(z < 0, spot below true). -/
theorem targets_strictly_monotone (cfg : SignalConfig) (est : TruePriceEstimate)
    (leverage_stress : LeverageStress) (stablecoin_state : StablecoinState)
    (hz : cfg.min_zscore_threshold ≤ |est.deviation_zscore|) :
    (0 < est.deviation_zscore → est.price < est.spot_median →
      List.Chain' (fun a b => b < a)
        ((generate_signal cfg est leverage_stress stablecoin_state).targets.map
          Target.price)) ∧
    (est.deviation_zscore < 0 → est.spot_median < est.price →
      List.Chain' (fun a b => a < b)
        ((generate_signal cfg est leverage_stress stablecoin_state).targets.map
          Target.price)) := by
  have h : ¬ |est.deviation_zscore| < cfg.min_zscore_threshold := not_lt.mpr hz
  constructor
  · intro _ hd
    simp only [generate_signal, h, if_false, compute_targets]
    simp only [List.map_cons, List.map_nil, List.chain'_cons, List.chain'_singleton,
      and_true]
    refine ⟨by linarith, by linarith, by linarith⟩
  · intro _ hd
    simp only [generate_signal, h, if_false, compute_targets]
    simp only [List.map_cons, List.map_nil, List.chain'_cons, List.chain'_singleton,
      and_true]
    refine ⟨by linarith, by linarith, by linarith⟩

/-- Witness for C6 (amended): z = 2, spot 110, true price 100 gives strictly
descending targets. -/
theorem targets_strictly_monotone_witness :
    List.Chain' (fun a b => b < a)
      ((generate_signal SignalConfig.default estimateShort sampleStress
        sampleState).targets.map Target.price) :=
  (targets_strictly_monotone SignalConfig.default estimateShort sampleStress
    sampleState (by norm_num [estimateShort, SignalConfig.default])).1
    (by norm_num [estimateShort]) (by norm_num [estimateShort])

/-- Helper: `USDTFlowModel._normalize` is nonnegative on nonnegative inputs. -/
theorem usdt_normalize_nonneg (value typical : ℝ) (hv : 0 ≤ value) (ht : 0 ≤ typical) :
    0 ≤ usdt_normalize value typical := by
  unfold usdt_normalize
  split
  · exact le_refl 0
  · exact le_min (by norm_num) (div_nonneg hv ht)

/-- C7: for every flow-data input and optional leverage state (with the
spec's nonnegative-flow input domain and the validated configuration
`v_base ≤ v_max`), the computed `volatility_multiplier` lies in
`[v_base, v_max]`. -/
theorem volatility_multiplier_in_bounds (cfg : StablecoinConfig)
    (fd : StablecoinFlowData) (ls : Option LeverageState)
    (h1 : 0 ≤ fd.usdt_mint_volume_24h) (h2 : 0 ≤ fd.usdt_derivatives_flow)
    (h3 : 0 ≤ fd.usdt_spot_flow) (h4 : 0 ≤ cfg.usdt_typical_mint_volume)
    (h5 : cfg.usdt_volatility_mult_base ≤ cfg.usdt_volatility_mult_max) :
    cfg.usdt_volatility_mult_base ≤ (compute_impact cfg fd ls).volatility_multiplier ∧
      (compute_impact cfg fd ls).volatility_multiplier ≤ cfg.usdt_volatility_mult_max := by
  have hm : 0 ≤ usdt_normalize fd.usdt_mint_volume_24h cfg.usdt_typical_mint_volume :=
    usdt_normalize_nonneg _ _ h1 h4
  have hdr : 0 ≤ fd.usdt_derivatives_flow /
      (fd.usdt_derivatives_flow + fd.usdt_spot_flow + 1) :=
    div_nonneg h2 (by linarith)
  have main : ∀ o : ℝ,
      cfg.usdt_volatility_mult_base ≤ min cfg.usdt_volatility_mult_max
        (cfg.usdt_volatility_mult_base +
          (0.5 * usdt_normalize fd.usdt_mint_volume_24h cfg.usdt_typical_mint_volume +
           0.3 * (fd.usdt_derivatives_flow /
             (fd.usdt_derivatives_flow + fd.usdt_spot_flow + 1)) +
           0.2 * max 0 o)) ∧
      min cfg.usdt_volatility_mult_max
        (cfg.usdt_volatility_mult_base +
          (0.5 * usdt_normalize fd.usdt_mint_volume_24h cfg.usdt_typical_mint_volume +
           0.3 * (fd.usdt_derivatives_flow /
             (fd.usdt_derivatives_flow + fd.usdt_spot_flow + 1)) +
           0.2 * max 0 o)) ≤ cfg.usdt_volatility_mult_max := by
    intro o
    have hoi := le_max_left (0 : ℝ) o
    exact ⟨le_min h5 (by linarith), min_le_left _ _⟩
  exact main _

/-- A quiet concrete flow-data input used by the C7 witness. -/
def flowDataQuiet : StablecoinFlowData :=
  ⟨100000000, 50000000, 30000000, [1, 1, 1, 1, 1], 0, 0, 0, 0, 0, 0, "neutral"⟩

/-- Witness for C7 at the default configuration. -/
theorem volatility_multiplier_in_bounds_witness :
    (1.0 : ℝ) ≤ (compute_impact StablecoinConfig.default flowDataQuiet none).volatility_multiplier ∧
    (compute_impact StablecoinConfig.default flowDataQuiet none).volatility_multiplier ≤ (3.0 : ℝ) := by
  have h := volatility_multiplier_in_bounds StablecoinConfig.default flowDataQuiet none
    (by norm_num [flowDataQuiet]) (by norm_num [flowDataQuiet])
    (by norm_num [flowDataQuiet]) (by norm_num [StablecoinConfig.default])
    (by norm_num [StablecoinConfig.default])
  simpa [StablecoinConfig.default] using h

/-- C8 (amended): the oi-correlation returns 0 when fewer than 5 of the last
24 hourly samples exist or open interest is zero; within a recent spike
(recent 4-sample mean above 1.5x the overall mean plus the 1e-10 guard) it
returns 0.8 / 0.5 / 0.2 by `oi_change_5m`; in every other case it returns
0.2 — not 0. -/
theorem oi_correlation_characterization (fd : StablecoinFlowData)
    (ls : LeverageState) :
    compute_oi_correlation fd ls = oiCorrelationAmended fd ls := by
  unfold compute_oi_correlation oiCorrelationAmended
  by_cases h1 : (lastN 24 fd.usdt_hourly_flows).length < 5 <;>
    by_cases h2 : ls.open_interest = 0 <;>
      simp [h1, h2]

/-- A steady five-sample flow history: at least 5 samples, no recent spike. -/
def flowDataSteady : StablecoinFlowData :=
  ⟨0, 0, 0, [1, 1, 1, 1, 1], 0, 0, 0, 0, 0, 0, "neutral"⟩

/-- A leverage state with nonzero open interest and rising OI. -/
def leverageStateSteady : LeverageState := ⟨1, 0, 0, 0, 1, 0.02⟩

/-- C8 counterexample: with 5 steady samples (no spike) and nonzero open
interest the code returns 0.2, while the claim as stated predicts 0.0 for
every case outside the spike test. -/
theorem oi_correlation_claim_counterexample :
    compute_oi_correlation flowDataSteady leverageStateSteady = 0.2 ∧
    oiCorrelationClaim flowDataSteady leverageStateSteady = 0 ∧
    (0.2 : ℝ) ≠ 0 := by
  refine ⟨?_, ?_, by norm_num⟩ <;>
    norm_num [compute_oi_correlation, oiCorrelationClaim, flowDataSteady,
      leverageStateSteady, lastN, listMean]

/-- Helper: every stablecoin venue-weight multiplier is strictly positive
(the dict holds only 0.5, 0.6 and 1.2, and absent venues default to 1.0). -/
theorem venue_weight_adjustment_pos (st : StablecoinState) (name : String) :
    0 < (venue_weight_adjustments st name).getD 1.0 := by
  unfold venue_weight_adjustments
  split_ifs <;> norm_num

/-- C4: the per-venue variance handed to the Kalman update equals
`base·(2−rel)·(1+5·stress)·(1+3·(1−quality))·(10 if cascade)·usdt_mult·
(0.9 if TREND)·(1.5 if derivatives and USDT-dominant)` divided by the
venue-weight multiplier; and under the claimed preconditions (plus the
data-model invariant `volatility_multiplier ≥ 1 > 0`) it is strictly
positive. -/
theorem observation_variance_formula_and_positive (cfg : KalmanConfig)
    (venue : VenueConfig) (leverage_stress : LeverageStress)
    (orderbook_quality : ℝ) (stablecoin_state : StablecoinState)
    (is_cascade : Bool) :
    adjusted_observation_variance cfg venue leverage_stress orderbook_quality
      stablecoin_state is_cascade =
      observationVarianceSpec cfg venue leverage_stress orderbook_quality
        stablecoin_state is_cascade ∧
    (0 < cfg.base_observation_var → 0 ≤ venue.base_reliability →
     venue.base_reliability ≤ 1 → 0 ≤ orderbook_quality → orderbook_quality ≤ 1 →
     0 ≤ leverage_stress.score → leverage_stress.score ≤ 1 →
     0 < stablecoin_state.usdt_impact.volatility_multiplier →
     0 < adjusted_observation_variance cfg venue leverage_stress orderbook_quality
       stablecoin_state is_cascade) := by
  constructor
  · show cfg.base_observation_var * (2.0 - venue.base_reliability) *
        (1 + leverage_stress.score * 5) * (1 + (1 - orderbook_quality) * 3) *
        (if is_cascade then (10.0 : ℝ) else 1.0) *
        stablecoin_state.usdt_impact.volatility_multiplier *
        (if stablecoin_state.usdc_impact.regime_signal = RegimeSignal.TREND then
          (0.9 : ℝ) else 1.0) *
        (if venue.has_derivatives ∧ stablecoin_state.flow_ratio.usdt_dominant then
          (1.5 : ℝ) else 1.0) /
        ((venue_weight_adjustments stablecoin_state venue.name).getD 1.0) =
      cfg.base_observation_var * (2 - venue.base_reliability) *
        (1 + 5 * leverage_stress.score) * (1 + 3 * (1 - orderbook_quality)) *
        (if is_cascade then (10 : ℝ) else 1) *
        stablecoin_state.usdt_impact.volatility_multiplier *
        (if stablecoin_state.usdc_impact.regime_signal = RegimeSignal.TREND then
          (0.9 : ℝ) else 1) *
        (if venue.has_derivatives ∧ stablecoin_state.flow_ratio.usdt_dominant then
          (1.5 : ℝ) else 1) /
        ((venue_weight_adjustments stablecoin_state venue.name).getD 1.0)
    split_ifs <;> ring
  · intro hb hr1 hr2 hq1 hq2 hs1 hs2 hv
    show 0 < cfg.base_observation_var * (2.0 - venue.base_reliability) *
        (1 + leverage_stress.score * 5) * (1 + (1 - orderbook_quality) * 3) *
        (if is_cascade then (10.0 : ℝ) else 1.0) *
        stablecoin_state.usdt_impact.volatility_multiplier *
        (if stablecoin_state.usdc_impact.regime_signal = RegimeSignal.TREND then
          (0.9 : ℝ) else 1.0) *
        (if venue.has_derivatives ∧ stablecoin_state.flow_ratio.usdt_dominant then
          (1.5 : ℝ) else 1.0) /
        ((venue_weight_adjustments stablecoin_state venue.name).getD 1.0)
    have f1 : (0 : ℝ) < 2.0 - venue.base_reliability := by linarith
    have f2 : (0 : ℝ) < 1 + leverage_stress.score * 5 := by linarith
    have f3 : (0 : ℝ) < 1 + (1 - orderbook_quality) * 3 := by linarith
    have f4 : (0 : ℝ) < if is_cascade then (10.0 : ℝ) else 1.0 := by
      split <;> norm_num
    have f5 : (0 : ℝ) <
        if stablecoin_state.usdc_impact.regime_signal = RegimeSignal.TREND then
          (0.9 : ℝ) else 1.0 := by
      split <;> norm_num
    have f6 : (0 : ℝ) <
        if venue.has_derivatives ∧ stablecoin_state.flow_ratio.usdt_dominant then
          (1.5 : ℝ) else 1.0 := by
      split <;> norm_num
    exact div_pos
      (mul_pos (mul_pos (mul_pos (mul_pos (mul_pos (mul_pos (mul_pos hb f1) f2) f3)
        f4) hv) f5) f6)
      (venue_weight_adjustment_pos stablecoin_state venue.name)

/-- The default binance venue for the C4 witness. -/
def venueBinance : VenueConfig := ⟨"binance", 0.5, true, 0.7, false, false, true⟩

/-- Witness for C4 at the default configuration and a quiet market. -/
theorem observation_variance_positive_witness :
    0 < adjusted_observation_variance KalmanConfig.default venueBinance
      sampleStress 0.9 sampleState false :=
  (observation_variance_formula_and_positive KalmanConfig.default venueBinance
    sampleStress 0.9 sampleState false).2
    (by norm_num [KalmanConfig.default]) (by norm_num [venueBinance])
    (by norm_num [venueBinance]) (by norm_num) (by norm_num)
    (by norm_num [sampleStress]) (by norm_num [sampleStress])
    (by norm_num [sampleState, sampleUSDTImpact])

/-- Helper: the 2x2 literal `!![a, 0; 0, b]` is the diagonal matrix on `![a, b]`. -/
theorem diag2_eq (a b : ℝ) : !![a, 0; 0, b] = Matrix.diagonal ![a, b] := by
  ext i j
  fin_cases i <;> fin_cases j <;> simp [Matrix.diagonal]

/-- Helper: real positive semidefiniteness is preserved by two-sided
conjugation `B M Bᵀ` (over `ℝ` the conjugate transpose is the transpose). -/
theorem psd_conj {n m : Type*} [Fintype n] [Fintype m]
    (B : Matrix m n ℝ) {M : Matrix n n ℝ} (hM : M.PosSemidef) :
    (B * M * Bᵀ).PosSemidef := by
  have h := hM.mul_mul_conjTranspose_same B
  rwa [Matrix.conjTranspose_eq_transpose_of_trivial] at h

/-- Helper: the dynamic process noise is positive semidefinite whenever the
base entries are nonnegative and the USDC drift adjustment honours its
documented `[-0.1, 0.1]` range. -/
theorem process_noise_psd (cfg : KalmanConfig) (st : Option StablecoinState)
    (h3 : 0 ≤ cfg.process_noise_price) (h4 : 0 ≤ cfg.process_noise_drift)
    (hst : ∀ u ∈ st, |u.usdc_impact.drift_confidence_adjustment| ≤ 0.1) :
    (compute_process_noise (Qbase cfg) st).PosSemidef := by
  unfold compute_process_noise Qbase
  have hc : ∀ c : ℝ, 0 ≤ c →
      ((c • !![cfg.process_noise_price, 0; 0, cfg.process_noise_drift] : Mat2)).PosSemidef := by
    intro c hcn
    rw [diag2_eq, ← Matrix.diagonal_smul]
    apply Matrix.PosSemidef.diagonal
    intro i
    fin_cases i <;> simpa using mul_nonneg hcn (by assumption)
  apply hc
  cases st with
  | none => norm_num
  | some s =>
    show 0 ≤ if s.usdc_impact.regime_signal = RegimeSignal.TREND then
        1.0 + 0.2 * s.usdc_impact.drift_confidence_adjustment else 1.0
    have hadj := (abs_le.mp (hst s rfl)).1
    split
    · linarith
    · norm_num

/-- Helper: the Joseph-form update keeps `P` positive semidefinite for any
gain `K` as long as the observation variances are nonnegative. -/
theorem kalman_update_psd (n : ℕ) (obs vars : Fin n → ℝ) (sp : KalmanState)
    (hP : sp.P.PosSemidef) (hv : ∀ i, 0 ≤ vars i) :
    (kalman_update n obs vars sp).P.PosSemidef := by
  show ((1 - sp.P * (Hmat n)ᵀ * (Hmat n * sp.P * (Hmat n)ᵀ + Matrix.diagonal vars)⁻¹ * Hmat n) *
      sp.P *
      (1 - sp.P * (Hmat n)ᵀ * (Hmat n * sp.P * (Hmat n)ᵀ + Matrix.diagonal vars)⁻¹ * Hmat n)ᵀ +
      sp.P * (Hmat n)ᵀ * (Hmat n * sp.P * (Hmat n)ᵀ + Matrix.diagonal vars)⁻¹ *
        Matrix.diagonal vars *
        (sp.P * (Hmat n)ᵀ * (Hmat n * sp.P * (Hmat n)ᵀ + Matrix.diagonal vars)⁻¹)ᵀ).PosSemidef
  exact (psd_conj _ hP).add (psd_conj _ (Matrix.PosSemidef.diagonal hv))

/-- Helper: the prediction step keeps `P` positive semidefinite. -/
theorem kalman_predict_psd (cfg : KalmanConfig) (s : KalmanState)
    (st : Option StablecoinState) (hP : s.P.PosSemidef)
    (h3 : 0 ≤ cfg.process_noise_price) (h4 : 0 ≤ cfg.process_noise_drift)
    (hst : ∀ u ∈ st, |u.usdc_impact.drift_confidence_adjustment| ≤ 0.1) :
    (kalman_predict cfg s st).P.PosSemidef := by
  show (Fmat cfg * s.P * (Fmat cfg)ᵀ + compute_process_noise (Qbase cfg) st).PosSemidef
  exact (psd_conj _ hP).add (process_noise_psd cfg st h3 h4 hst)

/-- Input sanity for one tick: nonnegative observation variances and a USDC
drift adjustment inside its documented range. -/
def TickOK (t : ObsTick) : Prop :=
  (∀ i, 0 ≤ t.observation_variances i) ∧
  ∀ u ∈ t.stablecoin_state, |u.usdc_impact.drift_confidence_adjustment| ≤ 0.1

/-- Helper: positive semidefiniteness of `P` is an invariant of every run. -/
theorem kalman_run_psd (cfg : KalmanConfig)
    (h3 : 0 ≤ cfg.process_noise_price) (h4 : 0 ≤ cfg.process_noise_drift) :
    ∀ (ticks : List ObsTick) (s : KalmanState), s.P.PosSemidef →
      (∀ t ∈ ticks, TickOK t) → (kalman_run cfg s ticks).P.PosSemidef := by
  intro ticks
  induction ticks with
  | nil => intro s hP _; simpa [kalman_run] using hP
  | cons t ts ih =>
    intro s hP hh
    have ht := hh t (List.mem_cons_self t ts)
    have hstep : (kalman_tick cfg s t).P.PosSemidef :=
      kalman_update_psd t.n t.observations t.observation_variances _
        (kalman_predict_psd cfg s t.stablecoin_state hP h3 h4 ht.2) ht.1
    exact ih (kalman_tick cfg s t) hstep fun u hu => hh u (List.mem_cons_of_mem t hu)

/-- C1: for every predict/update run from a diagonal nonnegative initial
covariance with nonnegative base process noise, nonnegative observation
variances, and USDC drift adjustments inside their documented range, the
state covariance `P` is positive semidefinite and symmetric after every
update (Joseph form), and in particular `P[0,0] ≥ 0`. -/
theorem kalman_covariance_psd (cfg : KalmanConfig) (x0 : Vec2) (ticks : List ObsTick)
    (h1 : 0 ≤ cfg.initial_price_var) (h2 : 0 ≤ cfg.initial_drift_var)
    (h3 : 0 ≤ cfg.process_noise_price) (h4 : 0 ≤ cfg.process_noise_drift)
    (h5 : ∀ t ∈ ticks, TickOK t) :
    (kalman_run cfg ⟨x0, initialP cfg⟩ ticks).P.PosSemidef ∧
    (kalman_run cfg ⟨x0, initialP cfg⟩ ticks).P.IsSymm ∧
    0 ≤ (kalman_run cfg ⟨x0, initialP cfg⟩ ticks).P 0 0 := by
  have hinit : (initialP cfg).PosSemidef := by
    rw [initialP, diag2_eq]
    apply Matrix.PosSemidef.diagonal
    intro i
    fin_cases i <;> simpa
  have hP := kalman_run_psd cfg h3 h4 ticks ⟨x0, initialP cfg⟩ hinit h5
  refine ⟨hP, ?_, ?_⟩
  · rw [Matrix.IsSymm, ← Matrix.conjTranspose_eq_transpose_of_trivial]
    exact hP.1
  · have h := hP.2 (Pi.single 0 1)
    simpa [Matrix.mulVec, Matrix.dotProduct, Pi.single_apply, Fin.sum_univ_two] using h

/-- A single one-observation tick for the C1 witness. -/
def tickSingle : ObsTick := ⟨1, ![30100], ![10], some sampleState⟩

/-- Witness for C1: one predict/update round at the default configuration. -/
theorem kalman_covariance_psd_witness :
    (kalman_run KalmanConfig.default ⟨![30000, 0], initialP KalmanConfig.default⟩
      [tickSingle]).P.PosSemidef ∧
    (kalman_run KalmanConfig.default ⟨![30000, 0], initialP KalmanConfig.default⟩
      [tickSingle]).P.IsSymm ∧
    0 ≤ (kalman_run KalmanConfig.default ⟨![30000, 0], initialP KalmanConfig.default⟩
      [tickSingle]).P 0 0 :=
  kalman_covariance_psd KalmanConfig.default ![30000, 0] [tickSingle]
    (by norm_num [KalmanConfig.default]) (by norm_num [KalmanConfig.default])
    (by norm_num [KalmanConfig.default]) (by norm_num [KalmanConfig.default])
    (by
      intro t ht
      rw [List.mem_singleton] at ht
      subst ht
      constructor
      · intro i
        show (0 : ℝ) ≤ (![10] : Fin 1 → ℝ) i
        fin_cases i <;> norm_num
      · intro u hu
        have hs : sampleState = u := by simpa [tickSingle] using hu
        subst hs
        norm_num [sampleState, sampleUSDCImpact, abs_le])

/-- Helper: a product through an empty index type is the zero matrix. -/
theorem mul_empty_eq_zero (A : Matrix (Fin 2) (Fin 0) ℝ) (B : Matrix (Fin 0) (Fin 2) ℝ) :
    A * B = 0 := by
  ext i j
  simp [Matrix.mul_apply]

/-- Helper: multiplying a length-0 vector gives the zero vector. -/
theorem mulVec_empty_eq_zero (A : Matrix (Fin 2) (Fin 0) ℝ) (v : Fin 0 → ℝ) :
    Matrix.mulVec A v = 0 := by
  funext i
  simp [Matrix.mulVec, Matrix.dotProduct]

/-- Helper: with no observations the Joseph form returns `P` unchanged. -/
theorem joseph_zero_obs (A : Matrix (Fin 2) (Fin 0) ℝ) (R : Matrix (Fin 0) (Fin 0) ℝ)
    (P : Mat2) :
    (1 - A * Hmat 0) * P * (1 - A * Hmat 0)ᵀ + A * R * Aᵀ = P := by
  have hz : A * R * Aᵀ = 0 := by
    ext i j
    simp [Matrix.mul_apply]
  rw [mul_empty_eq_zero A (Hmat 0), sub_zero, one_mul, Matrix.transpose_one, mul_one,
    hz, add_zero]

/-- Helper: `update` with an empty observation vector is the identity on the
filter state — the Python code raises nothing on `n_obs = 0` and the
vacuous matrix algebra leaves the predicted state in place. -/
theorem kalman_update_zero_obs (obs vars : Fin 0 → ℝ) (sp : KalmanState) :
    kalman_update 0 obs vars sp = sp := by
  obtain ⟨x, P⟩ := sp
  show KalmanState.mk
      (x + Matrix.mulVec
        (P * (Hmat 0)ᵀ * (Hmat 0 * P * (Hmat 0)ᵀ + Matrix.diagonal vars)⁻¹)
        (obs - Matrix.mulVec (Hmat 0) x))
      ((1 - P * (Hmat 0)ᵀ * (Hmat 0 * P * (Hmat 0)ᵀ + Matrix.diagonal vars)⁻¹ * Hmat 0) *
        P *
        (1 - P * (Hmat 0)ᵀ * (Hmat 0 * P * (Hmat 0)ᵀ + Matrix.diagonal vars)⁻¹ * Hmat 0)ᵀ +
        P * (Hmat 0)ᵀ * (Hmat 0 * P * (Hmat 0)ᵀ + Matrix.diagonal vars)⁻¹ *
          Matrix.diagonal vars *
          (P * (Hmat 0)ᵀ * (Hmat 0 * P * (Hmat 0)ᵀ + Matrix.diagonal vars)⁻¹)ᵀ) = ⟨x, P⟩
  rw [mulVec_empty_eq_zero, add_zero, joseph_zero_obs]

/-- An initialized filter state (price 100, drift 0, default covariance). -/
def kalmanWarm : KalmanState := ⟨![100, 0], !![100, 0; 0, 1]⟩

/-- C5 (code bug): calling the orchestrator update path with an *empty*
venue-price map raises no error at all — the filter runs a predict step and
a vacuous zero-observation update, so `P` moves from its prior value
(here `P[0,0]` goes from 100 to 102) instead of the update failing with
`InsufficientObservations` and leaving the state unchanged; no such error
exists anywhere in the code. -/
theorem empty_venue_prices_changes_state :
    (oracle_update_kalman KalmanConfig.default defaultVenues kalmanWarm
      (fun _ => none) none sampleStress sampleState false (fun _ => none)).P 0 0 = 102 ∧
    kalmanWarm.P 0 0 = 100 ∧
    (oracle_update_kalman KalmanConfig.default defaultVenues kalmanWarm
      (fun _ => none) none sampleStress sampleState false (fun _ => none)).P ≠
      kalmanWarm.P := by
  have hobs : prepare_observations KalmanConfig.default defaultVenues
      (fun _ => none) none sampleStress sampleState false (fun _ => none) = ([], []) := by
    simp [prepare_observations, venue_observations, defaultVenues]
  have hstep : oracle_update_kalman KalmanConfig.default defaultVenues kalmanWarm
      (fun _ => none) none sampleStress sampleState false (fun _ => none) =
      kalman_predict KalmanConfig.default kalmanWarm (some sampleState) := by
    unfold oracle_update_kalman
    rw [hobs]
    exact kalman_update_zero_obs _ _ _
  have hq : compute_process_noise (Qbase KalmanConfig.default) (some sampleState) =
      (1.0 : ℝ) • Qbase KalmanConfig.default := rfl
  have hA : (oracle_update_kalman KalmanConfig.default defaultVenues kalmanWarm
      (fun _ => none) none sampleStress sampleState false (fun _ => none)).P 0 0 = 102 := by
    rw [hstep]
    show (Fmat KalmanConfig.default * kalmanWarm.P * (Fmat KalmanConfig.default)ᵀ +
      compute_process_noise (Qbase KalmanConfig.default) (some sampleState)) 0 0 = 102
    rw [hq]
    norm_num [Fmat, Qbase, kalmanWarm, KalmanConfig.default, Matrix.add_apply,
      Matrix.mul_apply, Matrix.smul_apply, Matrix.transpose_apply, Fin.sum_univ_two,
      Matrix.cons_val_zero, Matrix.cons_val_one, Matrix.head_cons,
      Matrix.vecHead, Matrix.vecTail]
  have hB : kalmanWarm.P 0 0 = 100 := by norm_num [kalmanWarm]
  refine ⟨hA, hB, fun hEq => ?_⟩
  have h00 := congrFun (congrFun hEq 0) 0
  rw [hA, hB] at h00
  norm_num at h00
